import Mathlib

/-!
Shallow embedding of the patch-propagation scripts of the
`juju-sdk-tutorial-k8s` repository (`make-prs.py`, the later variant, and
`helper-script.py`, the earlier variant).

Python strings are modelled as Lean `String`; Python's string comparison
(lexicographic on code points) is modelled by the lexicographic order on
`String.data : List Char` (Lean `Char` compares by code point, as Python
does).  `sorted(...)` is modelled by insertion sort under that order:
for a linear order the sorted result is unique, so any stable sort agrees
with Python's.  `exit(1)` is modelled by `Except.error ()`; a function
that can call `exit(1)` returns `Except Unit α`.  Python's `None`-vs-`True`
return values (`apply_patch` falls off the end on success) are modelled by
`Option Bool`, with `pyTruthy` giving Python truthiness.  Subprocess
invocations are modelled by an oracle `Env` giving each invocation's
return code and standard-error text, indexed by the branch being worked
on; the GitHub/network side is modelled by oracle fields as well.
-/

/-- Python string comparison `a < b`: lexicographic on code points. -/
def pyLt (a b : String) : Bool := decide (a.data < b.data)

/-- Python string comparison `a <= b`, as the `Prop` the sort uses. -/
def pyLe (a b : String) : Prop := a.data ≤ b.data

instance : DecidableRel pyLe :=
  fun a b => inferInstanceAs (Decidable (a.data ≤ b.data))

instance : IsTotal String pyLe := ⟨fun a b => le_total a.data b.data⟩

instance : IsTrans String pyLe := ⟨fun _ _ _ h1 h2 => le_trans h1 h2⟩

/-- `needle` occurs at the start of `hay` (char-by-char comparison). -/
def charsStartWith : List Char → List Char → Bool
  | [], _ => true
  | _ :: _, [] => false
  | a :: as, b :: bs => a == b && charsStartWith as bs

/-- `needle` occurs somewhere in `hay`: Python's `needle in hay` on strings. -/
def charsContain (needle : List Char) : List Char → Bool
  | [] => charsStartWith needle []
  | b :: bs => charsStartWith needle (b :: bs) || charsContain needle bs

/-- Python `needle in hay` for strings. -/
def pyInStr (needle hay : String) : Bool := charsContain needle.data hay.data

/-- Python truthiness of a value that is either `None` or a `bool`. -/
def pyTruthy : Option Bool → Bool
  | none => false
  | some b => b

/-- Result of a `subprocess.run` call: return code and standard error. -/
structure CmdResult where
  returncode : Int
  stderr : String
deriving DecidableEq

/-- Oracle for every external interaction of one run: the outcome of each
subprocess invocation (indexed by the branch being processed) and of the
GitHub-API calls.  `addResult` and `commitResult` are the outcomes of the
`git add` / `git commit` invocations inside `commit_diff`; `pushResult` is
indexed by the head branch pushed. -/
structure Env where
  fetchOk : Bool
  cloneResult : CmdResult
  branches : List String
  prBase : String
  checkoutResult : String → CmdResult
  applyResult : String → CmdResult
  addResult : String → CmdResult
  commitResult : String → CmdResult
  pushResult : String → CmdResult

/-- A created review request, with the raw Python value passed as the
`draft` keyword (in the later variant this is `apply_patch`'s return
value, which may be `None`). -/
structure PullRequest where
  repo : String
  base : String
  head : String
  title : String
  body : String
  draft : Option Bool
deriving DecidableEq

namespace MakePrs

/-- `get_diff_as_patch`: fetch the diff text and write it to `DIFF_FILE`;
`res.raise_for_status()` on failure terminates the process. -/
def get_diff_as_patch (env : Env) : Except Unit Unit :=
  if env.fetchOk then .ok () else .error ()

/-- `clone`: clone the fork into `WORKING_DIR`; `exit(1)` on failure. -/
def clone (env : Env) : Except Unit Unit :=
  if env.cloneResult.returncode ≠ 0 then .error () else .ok ()

/-- `create_new_branch_based_on`: `git checkout -b <base>-update origin/<base>`;
`exit(1)` on failure, otherwise returns the new head branch name. -/
def create_new_branch_based_on (env : Env) (base : String) : Except Unit String :=
  let head := base ++ "-update"
  let result := env.checkoutResult base
  if result.returncode ≠ 0 then .error () else .ok head

/-- `apply_patch`: `git apply --3way ../diff.patch`.  On a non-zero return
code whose stderr contains `"conflicts"` it returns `True`; on any other
non-zero return code it calls `exit(1)`; on a zero return code it falls
off the end of the function, returning `None`. -/
def apply_patch (env : Env) (base : String) : Except Unit (Option Bool) :=
  let result := env.applyResult base
  if result.returncode ≠ 0 then
    if pyInStr "conflicts" result.stderr then
      .ok (some true)
    else
      .error ()
  else
    .ok none

/-- `commit_diff`: runs `git add .` and `git commit` without inspecting
their results, then `git push -f origin <head>`; only the push's return
code is checked, and a push failure calls `exit(1)`. -/
def commit_diff (env : Env) (base head : String) : Except Unit Unit :=
  let _add := env.addResult base
  let _commit := env.commitResult base
  let result := env.pushResult head
  if result.returncode ≠ 0 then .error () else .ok ()

/-- `create_pr`: build title and body from the fixed templates; when
`conflict` is truthy, append `" CONFLICTS!"` to the title and prepend the
conflict warning to the body; pass `conflict` itself as `draft`. -/
def create_pr (repo base head : String) (conflict : Option Bool)
    (original_pr : String) : PullRequest :=
  let title := "chore: merging diff from PR #" ++ original_pr ++ " into branch " ++ base
  let body := "Automated change: merging diff from PR #" ++ original_pr ++ " into branch " ++ base
  if pyTruthy conflict then
    { repo := repo, base := base, head := head,
      title := title ++ " CONFLICTS!",
      body := "**Conflicts! Need human intervention!**\n\n" ++ body,
      draft := conflict }
  else
    { repo := repo, base := base, head := head,
      title := title, body := body, draft := conflict }

/-- Filter of `get_all_chapters_branches`: `re.search(r"\d+_", name)` is
truthy exactly when some decimal digit in `name` is immediately followed
by an underscore (a match of one-or-more digits then `_` exists iff its
last digit is directly followed by the `_`). -/
def chapterPatternAux : List Char → Bool
  | c1 :: c2 :: rest => (c1.isDigit && c2 == '_') || chapterPatternAux (c2 :: rest)
  | _ => false

/-- Whether `re.search(r"\d+_", name)` finds a match in `name`. -/
def chapter_branch (name : String) : Bool := chapterPatternAux name.data

/-- `get_all_chapters_branches`: names of branches matching the chapter
pattern, sorted by Python string order. -/
def get_all_chapters_branches (branches : List String) : List String :=
  List.insertionSort pyLe (branches.filter chapter_branch)

/-- The target list computed in `main`:
`[b for b in get_all_chapters_branches(repo) if b > pr_base]`. -/
def downstream_targets (branches : List String) (pr_base : String) : List String :=
  (get_all_chapters_branches branches).filter (fun b => pyLt pr_base b)

/-- `apply_diff_to_branch_and_create_pr`: create the head branch, apply
the patch, and — unless a conflict was found with `ignore_conflicts`
unset, in which case it returns `True` at once — commit, push and create
the review request, falling off the end (returning `None`).  The model
also returns the list of review requests created by the call. -/
def apply_diff_to_branch_and_create_pr (env : Env) (repo base owner : String)
    (ignore_conflicts : Bool) (original_pr : String) :
    Except Unit (Option Bool × List PullRequest) :=
  match create_new_branch_based_on env base with
  | .error e => .error e
  | .ok head_branch =>
    match apply_patch env base with
    | .error e => .error e
    | .ok conflict =>
      if pyTruthy conflict && !ignore_conflicts then
        .ok (some true, [])
      else
        match commit_diff env base head_branch with
        | .error e => .error e
        | .ok _ =>
          .ok (none, [create_pr repo base (owner ++ ":" ++ head_branch) conflict original_pr])

/-- The `for branch in target_branches` loop of `main`, with its
conflict-triggered `break`; accumulates the review requests created. -/
def propagate (env : Env) (repo owner : String) (ignore_conflicts : Bool)
    (original_pr : String) : List String → Except Unit (List PullRequest)
  | [] => .ok []
  | branch :: rest =>
    match apply_diff_to_branch_and_create_pr env repo branch owner
        ignore_conflicts original_pr with
    | .error e => .error e
    | .ok (has_conflict, prs) =>
      if pyTruthy has_conflict && !ignore_conflicts then
        .ok prs
      else
        match propagate env repo owner ignore_conflicts original_pr rest with
        | .error e => .error e
        | .ok more => .ok (prs ++ more)

/-- Observable outcome of a run that terminated normally: the review
requests created and whether the scratch files remain on disk. -/
structure RunOutput where
  prs : List PullRequest
  diff_file_exists : Bool
  working_dir_exists : Bool
deriving DecidableEq

/-- `main`: fetch the diff, clone, compute downstream targets, run the
propagation loop, and clean up the scratch state unless `keep_tmp` was
given.  `.error ()` models the process terminating with a non-zero exit;
`.ok` models normal completion (exit status zero). -/
def main (env : Env) (repo owner original_pr : String)
    (ignore_conflicts keep_tmp : Bool) : Except Unit RunOutput :=
  match get_diff_as_patch env with
  | .error e => .error e
  | .ok _ =>
    match clone env with
    | .error e => .error e
    | .ok _ =>
      match propagate env repo owner ignore_conflicts original_pr
          (downstream_targets env.branches env.prBase) with
      | .error e => .error e
      | .ok prs =>
        if keep_tmp then
          .ok { prs := prs, diff_file_exists := true, working_dir_exists := true }
        else
          .ok { prs := prs, diff_file_exists := false, working_dir_exists := false }

end MakePrs

namespace HelperScript

/-- Filter of the earlier variant's `get_all_chapters_branches`:
`re.search(r"\d", name)` is truthy exactly when `name` contains a
decimal digit. -/
def chapter_branch (name : String) : Bool := name.data.any Char.isDigit

/-- The earlier variant's `get_all_chapters_branches`: names containing a
digit, sorted by Python string order. -/
def get_all_chapters_branches (branches : List String) : List String :=
  List.insertionSort pyLe (branches.filter chapter_branch)

end HelperScript

/-! ### Concrete command results and environments used as test inputs -/

/-- A subprocess invocation that succeeded. -/
def okCmd : CmdResult := ⟨0, ""⟩

/-- A failed `git apply` whose stderr mentions conflicts. -/
def conflictCmd : CmdResult := ⟨1, "error: applying patch failed with conflicts"⟩

/-- A failed subprocess whose stderr does not mention conflicts. -/
def hardFailCmd : CmdResult := ⟨128, "fatal: not a git repository"⟩

/-- A run in which every external call succeeds; four chapter branches,
the source review request based on `1_ch`. -/
def baseEnv : Env :=
  { fetchOk := true, cloneResult := okCmd,
    branches := ["1_ch", "2_ch", "3_ch", "4_ch"], prBase := "1_ch",
    checkoutResult := fun _ => okCmd, applyResult := fun _ => okCmd,
    addResult := fun _ => okCmd, commitResult := fun _ => okCmd,
    pushResult := fun _ => okCmd }

/-- Like `baseEnv`, but applying the patch on `3_ch` hits a conflict. -/
def conflictEnv : Env :=
  { baseEnv with applyResult := fun b => if b == "3_ch" then conflictCmd else okCmd }

/-- Like `baseEnv`, but applying the patch on `3_ch` fails without a conflict. -/
def fatalApplyEnv : Env :=
  { baseEnv with applyResult := fun b => if b == "3_ch" then hardFailCmd else okCmd }

/-- Like `baseEnv` with a single downstream branch, but `git add` and
`git commit` both fail. -/
def addFailEnv : Env :=
  { baseEnv with
    branches := ["1_ch", "2_ch"],
    addResult := fun _ => ⟨1, "fatal: add failed"⟩,
    commitResult := fun _ => ⟨1, "fatal: commit failed"⟩ }

/-- Like `baseEnv`, but every push fails. -/
def pushFailEnv : Env :=
  { baseEnv with pushResult := fun _ => ⟨1, "remote: permission denied"⟩ }

/-- Like `baseEnv`, but with no downstream branch at all. -/
def keepEnv : Env :=
  { baseEnv with branches := ["1_ch"] }

/-- The review request the later variant creates for branch `b`. -/
def pr_for (repo owner opr b : String) (conflict : Option Bool) : PullRequest :=
  MakePrs.create_pr repo b (owner ++ ":" ++ (b ++ "-update")) conflict opr

/-! ### Helper lemmas shared by several claims -/

/-- The branch is reached and every checked subprocess succeeds. -/
def branch_succeeds (env : Env) (b : String) : Prop :=
  (env.checkoutResult b).returncode = 0 ∧ (env.applyResult b).returncode = 0
    ∧ (env.pushResult (b ++ "-update")).returncode = 0

/-- The branch is reached and `git apply` fails with a recognized conflict. -/
def branch_conflicts (env : Env) (b : String) : Prop :=
  (env.checkoutResult b).returncode = 0 ∧ (env.applyResult b).returncode ≠ 0
    ∧ pyInStr "conflicts" (env.applyResult b).stderr = true

lemma apply_diff_succeeds (env : Env) (repo owner opr b : String) (ic : Bool)
    (h : branch_succeeds env b) :
    MakePrs.apply_diff_to_branch_and_create_pr env repo b owner ic opr
      = .ok (none, [pr_for repo owner opr b none]) := by
  obtain ⟨h1, h2, h3⟩ := h
  simp [MakePrs.apply_diff_to_branch_and_create_pr, MakePrs.create_new_branch_based_on,
    MakePrs.apply_patch, MakePrs.commit_diff, pyTruthy, pr_for, h1, h2, h3]

lemma apply_diff_conflict_halt (env : Env) (repo owner opr b : String)
    (h : branch_conflicts env b) :
    MakePrs.apply_diff_to_branch_and_create_pr env repo b owner false opr
      = .ok (some true, []) := by
  obtain ⟨h1, h2, h3⟩ := h
  simp [MakePrs.apply_diff_to_branch_and_create_pr, MakePrs.create_new_branch_based_on,
    MakePrs.apply_patch, pyTruthy, h1, h2, h3]

lemma apply_diff_conflict_continue (env : Env) (repo owner opr b : String)
    (h : branch_conflicts env b)
    (hpush : (env.pushResult (b ++ "-update")).returncode = 0) :
    MakePrs.apply_diff_to_branch_and_create_pr env repo b owner true opr
      = .ok (none, [pr_for repo owner opr b (some true)]) := by
  obtain ⟨h1, h2, h3⟩ := h
  simp [MakePrs.apply_diff_to_branch_and_create_pr, MakePrs.create_new_branch_based_on,
    MakePrs.apply_patch, MakePrs.commit_diff, pyTruthy, pr_for, h1, h2, h3, hpush]

lemma propagate_stop (env : Env) (repo owner opr : String) (done : List String)
    (b : String) (rest : List String)
    (hdone : ∀ x ∈ done, branch_succeeds env x) (hb : branch_conflicts env b) :
    MakePrs.propagate env repo owner false opr (done ++ b :: rest)
      = .ok (done.map fun x => pr_for repo owner opr x none) := by
  induction done with
  | nil =>
    simp only [List.nil_append, MakePrs.propagate,
      apply_diff_conflict_halt env repo owner opr b hb]
    simp [pyTruthy]
  | cons x xs ih =>
    have hx : branch_succeeds env x := hdone x (by simp)
    have ih2 := ih (fun y hy => hdone y (by simp [hy]))
    simp only [List.cons_append, MakePrs.propagate,
      apply_diff_succeeds env repo owner opr x false hx]
    simp only [List.append_eq]
    rw [ih2]
    simp [pyTruthy]

/-! ### C1: downstream-target selection -/

/-- C1 counterexample: with branches `{2_ch, 3_ch, 10_ch}` and base
`2_ch`, the selected downstream set is `{3_ch}` alone — `10_ch` sorts
*before* `2_ch` under plain string sort (`'1' < '2'`), so it is not
selected; the claim's asserted set `{10_ch, 3_ch}` is wrong. -/
theorem c1_counterexample :
    MakePrs.downstream_targets ["2_ch", "3_ch", "10_ch"] "2_ch" = ["3_ch"]
      ∧ "10_ch" ∉ MakePrs.downstream_targets ["2_ch", "3_ch", "10_ch"] "2_ch" := by
  decide

/-- C1 amended: the downstream targets are exactly the branches matching
the numeric-segment pattern that sort strictly after the base under plain
string sort, listed in ascending string order; in particular, for branches
`{2_ch, 3_ch, 10_ch}` with base `2_ch` the selected set is `{3_ch}` only,
since `10_ch` sorts before `2_ch` as a string. -/
theorem c1_amended (branches : List String) (pr_base b : String) :
    (b ∈ MakePrs.downstream_targets branches pr_base ↔
      b ∈ branches ∧ MakePrs.chapter_branch b = true ∧ pyLt pr_base b = true)
      ∧ List.Sorted pyLe (MakePrs.downstream_targets branches pr_base)
      ∧ MakePrs.downstream_targets ["2_ch", "3_ch", "10_ch"] "2_ch" = ["3_ch"] := by
  refine ⟨?_, ?_, by decide⟩
  · unfold MakePrs.downstream_targets MakePrs.get_all_chapters_branches
    rw [List.mem_filter, List.mem_insertionSort, List.mem_filter]
    tauto
  · exact List.Pairwise.filter _ (List.sorted_insertionSort pyLe _)

/-! ### C9: the two variants' branch filters -/

/-- C9 counterexample: on the branch list `["v2"]` the earlier variant
selects `v2` (it contains a digit) while the later variant selects
nothing (no digit is followed by an underscore), so the two
branch-filtering functions are not extensionally equal. -/
theorem c9_counterexample :
    HelperScript.get_all_chapters_branches ["v2"] = ["v2"]
      ∧ MakePrs.get_all_chapters_branches ["v2"] = []
      ∧ HelperScript.get_all_chapters_branches ["v2"]
          ≠ MakePrs.get_all_chapters_branches ["v2"] := by
  decide

lemma chapterPatternAux_digit :
    ∀ l : List Char, MakePrs.chapterPatternAux l = true → l.any Char.isDigit = true := by
  intro l
  induction l with
  | nil => intro h; simp [MakePrs.chapterPatternAux] at h
  | cons c rest ih =>
    intro h
    cases rest with
    | nil => simp [MakePrs.chapterPatternAux] at h
    | cons c2 rest2 =>
      simp only [MakePrs.chapterPatternAux, Bool.or_eq_true, Bool.and_eq_true] at h
      rcases h with ⟨h1, _⟩ | h2
      · simp [List.any_cons, h1]
      · have hr := ih h2
        simp only [List.any_cons, Bool.or_eq_true] at hr ⊢
        tauto

/-- C9 amended: the variants are not extensionally equal; rather, every
chapter branch selected by the later variant (digit followed by an
underscore) is also selected by the earlier variant (any digit), i.e. the
later selection is a subset of the earlier one. -/
theorem c9_amended (branches : List String) (b : String)
    (h : b ∈ MakePrs.get_all_chapters_branches branches) :
    b ∈ HelperScript.get_all_chapters_branches branches := by
  unfold MakePrs.get_all_chapters_branches at h
  unfold HelperScript.get_all_chapters_branches
  rw [List.mem_insertionSort, List.mem_filter] at h
  rw [List.mem_insertionSort, List.mem_filter]
  exact ⟨h.1, chapterPatternAux_digit _ h.2⟩

/-- C9 amended, witness: `3_ch` is selected by the later variant on
`["3_ch"]`, hence also by the earlier one. -/
theorem c9_amended_witness :
    "3_ch" ∈ HelperScript.get_all_chapters_branches ["3_ch"] :=
  c9_amended ["3_ch"] "3_ch" (by decide)

/-! ### C2: what happens on a detected conflict -/

/-- C2 counterexample: on branch `3_ch`, where the patch application hits
a recognized conflict, with conflict continuation disabled the function
returns `True` immediately — nothing is committed or pushed and *no*
review request is created for that branch, contrary to the claim that the
branch's review request is never suppressed. -/
theorem c2_counterexample :
    MakePrs.apply_diff_to_branch_and_create_pr conflictEnv
      "canonical/juju-sdk-tutorial-k8s" "3_ch" "alice" false "5"
      = .ok (some true, []) := by
  rfl

/-- C2 amended: when a conflict is detected on a branch, the resulting
changes are committed, pushed and a review request is created for that
branch only if conflict continuation is enabled; with continuation
disabled, processing of the branch stops before the commit, push and
review-request steps, and the branch gets no review request. -/
theorem c2_amended (env : Env) (repo base owner original_pr : String)
    (hb : branch_conflicts env base)
    (hpush : (env.pushResult (base ++ "-update")).returncode = 0) :
    MakePrs.apply_diff_to_branch_and_create_pr env repo base owner true original_pr
        = .ok (none, [pr_for repo owner original_pr base (some true)])
      ∧ MakePrs.apply_diff_to_branch_and_create_pr env repo base owner false original_pr
        = .ok (some true, []) :=
  ⟨apply_diff_conflict_continue env repo owner original_pr base hb hpush,
   apply_diff_conflict_halt env repo owner original_pr base hb⟩

/-- C2 amended, witness: instantiated on the concrete conflicting run. -/
theorem c2_amended_witness :
    MakePrs.apply_diff_to_branch_and_create_pr conflictEnv
        "canonical/juju-sdk-tutorial-k8s" "3_ch" "alice" true "5"
      = .ok (none, [pr_for "canonical/juju-sdk-tutorial-k8s" "alice" "5" "3_ch" (some true)]) :=
  (c2_amended conflictEnv "canonical/juju-sdk-tutorial-k8s" "3_ch" "alice" "5"
    (by constructor <;> decide) (by decide)).1

/-! ### C3: which subprocess failures are fatal -/

/-- C3 counterexample: a run in which both the `git add` and the
`git commit` invocations fail (non-zero return code) still completes
normally and still creates the review request for the branch — stage and
commit failures are not checked and are not fatal. -/
theorem c3_counterexample :
    (addFailEnv.addResult "2_ch").returncode ≠ 0
      ∧ (addFailEnv.commitResult "2_ch").returncode ≠ 0
      ∧ MakePrs.main addFailEnv "canonical/juju-sdk-tutorial-k8s" "alice" "5" false false
        = .ok { prs := [pr_for "canonical/juju-sdk-tutorial-k8s" "alice" "5" "2_ch" none],
                diff_file_exists := false, working_dir_exists := false } := by
  refine ⟨by decide, by decide, by rfl⟩

lemma commit_diff_ignores_add_and_commit (env : Env) (f g : String → CmdResult)
    (base head : String) :
    MakePrs.commit_diff { env with addResult := f, commitResult := g } base head
      = MakePrs.commit_diff env base head := rfl

lemma apply_diff_ignores_add_and_commit (env : Env) (f g : String → CmdResult)
    (repo base owner opr : String) (ic : Bool) :
    MakePrs.apply_diff_to_branch_and_create_pr
        { env with addResult := f, commitResult := g } repo base owner ic opr
      = MakePrs.apply_diff_to_branch_and_create_pr env repo base owner ic opr := rfl

lemma propagate_ignores_add_and_commit (env : Env) (f g : String → CmdResult)
    (repo owner opr : String) (ic : Bool) (targets : List String) :
    MakePrs.propagate { env with addResult := f, commitResult := g } repo owner ic opr targets
      = MakePrs.propagate env repo owner ic opr targets := by
  induction targets with
  | nil => rfl
  | cons b rest ih =>
    simp only [MakePrs.propagate, apply_diff_ignores_add_and_commit, ih]

/-- C3 amended: a failed clone, a failed branch creation, a non-conflict
patch-apply failure and a failed push are each fatal (non-zero exit,
aborting the run with no review request for the failing or any later
branch), but the stage (`git add`) and commit (`git commit`) return codes
are never inspected: the run's outcome is entirely independent of them. -/
theorem c3_amended (env : Env) (f g : String → CmdResult) (repo owner opr : String)
    (ic kt : Bool) (b : String) (rest : List String) :
    (MakePrs.clone env = .error () ↔ env.cloneResult.returncode ≠ 0)
      ∧ (∀ base head, MakePrs.commit_diff env base head = .error ()
          ↔ (env.pushResult head).returncode ≠ 0)
      ∧ (∀ base, MakePrs.create_new_branch_based_on env base = .error ()
          ↔ (env.checkoutResult base).returncode ≠ 0)
      ∧ MakePrs.main { env with addResult := f, commitResult := g } repo owner opr ic kt
          = MakePrs.main env repo owner opr ic kt
      ∧ ((env.checkoutResult b).returncode = 0 → (env.applyResult b).returncode = 0 →
          (env.pushResult (b ++ "-update")).returncode ≠ 0 →
          MakePrs.propagate env repo owner ic opr (b :: rest) = .error ()) := by
  refine ⟨?_, ?_, ?_, ?_, ?_⟩
  · unfold MakePrs.clone
    split <;> simp_all
  · intro base head
    unfold MakePrs.commit_diff
    by_cases hc : (env.pushResult head).returncode = 0 <;> simp [hc]
  · intro base
    unfold MakePrs.create_new_branch_based_on
    by_cases hc : (env.checkoutResult base).returncode = 0 <;> simp [hc]
  · unfold MakePrs.main
    simp only [propagate_ignores_add_and_commit]
    rfl
  · intro h1 h2 h3
    simp only [MakePrs.propagate, MakePrs.apply_diff_to_branch_and_create_pr,
      MakePrs.create_new_branch_based_on, MakePrs.apply_patch, MakePrs.commit_diff,
      h1, h2, h3]
    simp [pyTruthy, h3]

/-- C3 amended, witness: with every push failing, the run aborts with a
non-zero exit on the first branch. -/
theorem c3_amended_witness :
    MakePrs.propagate pushFailEnv "canonical/juju-sdk-tutorial-k8s" "alice" false "5" ["2_ch"]
      = .error () :=
  (c3_amended pushFailEnv (fun _ => okCmd) (fun _ => okCmd)
    "canonical/juju-sdk-tutorial-k8s" "alice" "5" false false "2_ch" []).2.2.2.2
    (by decide) (by decide) (by decide)

/-! ### C4: conflict with conflict-tolerant mode off -/

/-- C4 confirmed: with conflict continuation off, once a conflict is
detected on a branch the loop stops there — review requests exist exactly
for the successfully processed branches before it, none for the
conflicting branch or any later one — and the run still completes
normally (exit status zero, modelled by `.ok`). -/
theorem c4_confirmed (env : Env) (repo owner opr : String) (done rest : List String)
    (b : String)
    (hfetch : env.fetchOk = true)
    (hclone : env.cloneResult.returncode = 0)
    (htargets : MakePrs.downstream_targets env.branches env.prBase = done ++ b :: rest)
    (hdone : ∀ x ∈ done, branch_succeeds env x)
    (hb : branch_conflicts env b) :
    MakePrs.main env repo owner opr false false
      = .ok { prs := done.map fun x => pr_for repo owner opr x none,
              diff_file_exists := false, working_dir_exists := false } := by
  simp only [MakePrs.main, MakePrs.get_diff_as_patch, MakePrs.clone, hfetch, hclone,
    htargets, propagate_stop env repo owner opr done b rest hdone hb]
  simp

/-- C4 confirmed, witness: on the concrete conflicting run (`3_ch`
conflicts) only `2_ch` gets a review request and the run ends normally. -/
theorem c4_confirmed_witness :
    MakePrs.main conflictEnv "canonical/juju-sdk-tutorial-k8s" "alice" "5" false false
      = .ok { prs := [pr_for "canonical/juju-sdk-tutorial-k8s" "alice" "5" "2_ch" none],
              diff_file_exists := false, working_dir_exists := false } :=
  c4_confirmed conflictEnv "canonical/juju-sdk-tutorial-k8s" "alice" "5" ["2_ch"] ["4_ch"] "3_ch"
    (by decide) (by decide) (by decide)
    (by intro x hx; rw [List.mem_singleton] at hx; subst hx
        exact ⟨by decide, by decide, by decide⟩)
    ⟨by decide, by decide, by decide⟩

/-! ### C5: conflict with conflict-tolerant mode on -/

/-- C5 counterexample: on a conflict the warning is *appended* to the
title, not prepended — the produced title starts with the ordinary
template text, not with any conflict warning. -/
theorem c5_counterexample :
    (MakePrs.create_pr "canonical/juju-sdk-tutorial-k8s" "3_ch" "alice:3_ch-update"
        (some true) "5").title
        = "chore: merging diff from PR #5 into branch 3_ch CONFLICTS!"
      ∧ charsStartWith "CONFLICTS!".data
          (MakePrs.create_pr "canonical/juju-sdk-tutorial-k8s" "3_ch" "alice:3_ch-update"
            (some true) "5").title.data = false
      ∧ charsStartWith "**Conflicts! Need human intervention!**".data
          (MakePrs.create_pr "canonical/juju-sdk-tutorial-k8s" "3_ch" "alice:3_ch-update"
            (some true) "5").title.data = false := by
  refine ⟨by decide, by decide, by decide⟩

/-- C5 amended: for a detected conflict with conflict-tolerant mode on, a
review request is created for the conflicting branch with the conflict
warning *appended* to its title and prepended to its description, the
request marked as draft, and processing continues with the subsequent
downstream branches. -/
theorem c5_amended (env : Env) (repo owner opr b : String) (rest : List String)
    (prs_rest : List PullRequest)
    (hb : branch_conflicts env b)
    (hpush : (env.pushResult (b ++ "-update")).returncode = 0)
    (hrest : MakePrs.propagate env repo owner true opr rest = .ok prs_rest) :
    MakePrs.propagate env repo owner true opr (b :: rest)
        = .ok (pr_for repo owner opr b (some true) :: prs_rest)
      ∧ (pr_for repo owner opr b (some true)).title
          = ("chore: merging diff from PR #" ++ opr ++ " into branch " ++ b) ++ " CONFLICTS!"
      ∧ (pr_for repo owner opr b (some true)).body
          = "**Conflicts! Need human intervention!**\n\n"
              ++ ("Automated change: merging diff from PR #" ++ opr ++ " into branch " ++ b)
      ∧ (pr_for repo owner opr b (some true)).draft = some true := by
  refine ⟨?_, rfl, rfl, rfl⟩
  simp only [MakePrs.propagate,
    apply_diff_conflict_continue env repo owner opr b hb hpush, hrest]
  simp [pyTruthy]

/-- C5 amended, witness: in the concrete conflicting run with
continuation on, `3_ch` gets a flagged draft request and `4_ch` is still
processed afterwards. -/
theorem c5_amended_witness :
    MakePrs.propagate conflictEnv "canonical/juju-sdk-tutorial-k8s" "alice" true "5"
        ["3_ch", "4_ch"]
      = .ok [pr_for "canonical/juju-sdk-tutorial-k8s" "alice" "5" "3_ch" (some true),
             pr_for "canonical/juju-sdk-tutorial-k8s" "alice" "5" "4_ch" none] :=
  (c5_amended conflictEnv "canonical/juju-sdk-tutorial-k8s" "alice" "5" "3_ch" ["4_ch"]
    [pr_for "canonical/juju-sdk-tutorial-k8s" "alice" "5" "4_ch" none]
    ⟨by decide, by decide, by decide⟩ (by decide) (by rfl)).1

/-! ### C6: conflict classification of a failed patch application -/

/-- C6 confirmed: `apply_patch` classifies a failure as a conflict exactly
when the return code is non-zero and the stderr contains the substring
`"conflicts"`; any other non-zero result exits fatally (and a fatal
apply aborts the whole propagation loop); a zero return code is a clean
application. -/
theorem c6_confirmed (env : Env) (b repo owner opr : String) (ic : Bool)
    (rest : List String) :
    (MakePrs.apply_patch env b = .ok (some true) ↔
        (env.applyResult b).returncode ≠ 0
          ∧ pyInStr "conflicts" (env.applyResult b).stderr = true)
      ∧ (MakePrs.apply_patch env b = .error () ↔
        (env.applyResult b).returncode ≠ 0
          ∧ pyInStr "conflicts" (env.applyResult b).stderr = false)
      ∧ (MakePrs.apply_patch env b = .ok none ↔ (env.applyResult b).returncode = 0)
      ∧ ((env.checkoutResult b).returncode = 0 →
          (env.applyResult b).returncode ≠ 0 →
          pyInStr "conflicts" (env.applyResult b).stderr = false →
          MakePrs.propagate env repo owner ic opr (b :: rest) = .error ()) := by
  refine ⟨?_, ?_, ?_, ?_⟩
  · unfold MakePrs.apply_patch
    by_cases h1 : (env.applyResult b).returncode = 0 <;>
      by_cases h2 : pyInStr "conflicts" (env.applyResult b).stderr = true <;>
      simp [h1, h2]
  · unfold MakePrs.apply_patch
    by_cases h1 : (env.applyResult b).returncode = 0 <;>
      by_cases h2 : pyInStr "conflicts" (env.applyResult b).stderr = true <;>
      simp [h1, h2]
  · unfold MakePrs.apply_patch
    by_cases h1 : (env.applyResult b).returncode = 0 <;>
      by_cases h2 : pyInStr "conflicts" (env.applyResult b).stderr = true <;>
      simp [h1, h2]
  · intro h1 h2 h3
    simp only [MakePrs.propagate, MakePrs.apply_diff_to_branch_and_create_pr,
      MakePrs.create_new_branch_based_on, MakePrs.apply_patch, h1, h2, h3]
    simp [h2]

/-- C6 confirmed, witness: a patch failure whose stderr has no
`"conflicts"` substring aborts the whole run even in conflict-tolerant
mode, before any later branch. -/
theorem c6_confirmed_witness :
    MakePrs.propagate fatalApplyEnv "canonical/juju-sdk-tutorial-k8s" "alice" true "5"
        ["3_ch", "4_ch"]
      = .error () :=
  (c6_confirmed fatalApplyEnv "3_ch" "canonical/juju-sdk-tutorial-k8s" "alice" "5" true
    ["4_ch"]).2.2.2 (by decide) (by decide) (by decide)

/-! ### C7: review request after a clean apply -/

/-- C7 confirmed: for a branch whose patch applies cleanly (and whose
checkout and push succeed), the created review request carries exactly
the plain title and body templates — no conflict text is added and the
concrete instances contain no conflict marker — and its draft value is
not truthy. -/
theorem c7_confirmed (env : Env) (repo b owner opr : String) (ic : Bool)
    (hco : (env.checkoutResult b).returncode = 0)
    (hclean : (env.applyResult b).returncode = 0)
    (hpush : (env.pushResult (b ++ "-update")).returncode = 0) :
    MakePrs.apply_diff_to_branch_and_create_pr env repo b owner ic opr
        = .ok (none, [pr_for repo owner opr b none])
      ∧ (pr_for repo owner opr b none).title
          = "chore: merging diff from PR #" ++ opr ++ " into branch " ++ b
      ∧ (pr_for repo owner opr b none).body
          = "Automated change: merging diff from PR #" ++ opr ++ " into branch " ++ b
      ∧ pyTruthy (pr_for repo owner opr b none).draft = false
      ∧ pyInStr "CONFLICTS!"
          (pr_for "canonical/juju-sdk-tutorial-k8s" "alice" "5" "3_ch" none).title = false
      ∧ pyInStr "Conflicts! Need human intervention!"
          (pr_for "canonical/juju-sdk-tutorial-k8s" "alice" "5" "3_ch" none).body = false :=
  ⟨apply_diff_succeeds env repo owner opr b ic ⟨hco, hclean, hpush⟩,
   rfl, rfl, rfl, by decide, by decide⟩

/-- C7 confirmed, witness: instantiated on a concrete clean run. -/
theorem c7_confirmed_witness :
    MakePrs.apply_diff_to_branch_and_create_pr baseEnv
        "canonical/juju-sdk-tutorial-k8s" "2_ch" "alice" false "5"
      = .ok (none, [pr_for "canonical/juju-sdk-tutorial-k8s" "alice" "5" "2_ch" none]) :=
  (c7_confirmed baseEnv "canonical/juju-sdk-tutorial-k8s" "2_ch" "alice" "5" false
    (by decide) (by decide) (by decide)).1

/-! ### C8: scratch state after a normal completion -/

/-- C8 confirmed: whenever `main` completes normally, the scratch diff
file and working directory exist afterwards exactly when the `keep_tmp`
flag was set: cleanup removes both unless preservation was requested. -/
theorem c8_confirmed (env : Env) (repo owner opr : String) (ic keep_tmp : Bool)
    (out : MakePrs.RunOutput)
    (h : MakePrs.main env repo owner opr ic keep_tmp = .ok out) :
    out.diff_file_exists = keep_tmp ∧ out.working_dir_exists = keep_tmp := by
  unfold MakePrs.main at h
  split at h
  · exact Except.noConfusion h
  · split at h
    · exact Except.noConfusion h
    · split at h
      · exact Except.noConfusion h
      · split at h
        · injection h with h2
          subst h2
          simp_all
        · injection h with h2
          subst h2
          simp_all

/-- C8 confirmed, witness: a run with `keep_tmp` set completes with both
scratch artifacts still present. -/
theorem c8_confirmed_witness :
    (({ prs := [], diff_file_exists := true, working_dir_exists := true }
        : MakePrs.RunOutput).diff_file_exists = true)
      ∧ (({ prs := [], diff_file_exists := true, working_dir_exists := true }
        : MakePrs.RunOutput).working_dir_exists = true) :=
  c8_confirmed keepEnv "canonical/juju-sdk-tutorial-k8s" "alice" "5" false true
    { prs := [], diff_file_exists := true, working_dir_exists := true } (by rfl)

/-! ### C10: the None conflict flag on a clean apply -/

/-- C10 confirmed: on a clean application `apply_patch` returns `None`
(not `False`, despite the `bool` annotation), and that `None` is threaded
through and passed as the review request's draft value. -/
theorem c10_confirmed (env : Env) (repo b owner opr : String) (ic : Bool)
    (hco : (env.checkoutResult b).returncode = 0)
    (hclean : (env.applyResult b).returncode = 0)
    (hpush : (env.pushResult (b ++ "-update")).returncode = 0) :
    MakePrs.apply_patch env b = .ok none
      ∧ (none : Option Bool) ≠ some false
      ∧ MakePrs.apply_diff_to_branch_and_create_pr env repo b owner ic opr
          = .ok (none, [pr_for repo owner opr b none])
      ∧ (pr_for repo owner opr b none).draft = none := by
  refine ⟨?_, by simp, apply_diff_succeeds env repo owner opr b ic ⟨hco, hclean, hpush⟩, rfl⟩
  unfold MakePrs.apply_patch
  simp [hclean]

/-- C10 confirmed, witness: instantiated on a concrete clean apply. -/
theorem c10_confirmed_witness :
    MakePrs.apply_patch baseEnv "2_ch" = .ok none :=
  (c10_confirmed baseEnv "canonical/juju-sdk-tutorial-k8s" "2_ch" "alice" "5" false
    (by decide) (by decide) (by decide)).1
